import Mathlib

/-!
Shallow embedding of the V3 scoring engine of garantis-ai-agents
(src/scoring/temporal.py, src/scoring/types.py, src/scoring/calculator.py,
with the assessment schema of src/agents/timing_analysis/schemas.py),
together with theorems settling the frozen claims about it.

Python machine values are modelled as follows: Python ints are Lean Int,
Python floats that only ever hold 1.0 or 0.75 (and their products with
small ints, all exactly representable in binary) are Lean Rat, Python
round is round-half-to-even on Rat, datetime.date is a record of a valid
proleptic-Gregorian date with subtraction through the rata-die ordinal,
and fallible constructions return Option.
-/

/-! ## Assessment schema (src/agents/timing_analysis/schemas.py) -/

inductive TimingBase where
  | AGORA_CONSTITUICAO
  | AGORA_SUBSTITUICAO
  | ACOMPANHAR
  | PASSOU
deriving DecidableEq, Repr

inductive TipoGarantia where
  | deposito_judicial
  | penhora_dinheiro
  | penhora_bens_moveis
  | penhora_bens_imoveis
  | fianca_bancaria
  | seguro_garantia
  | hipoteca_judicial
  | caucao_real
  | indefinido
  | outro
deriving DecidableEq, Repr

inductive GarantiaAnswer where
  | SIM
  | PROVAVELMENTE_SIM
  | INCERTO
  | PROVAVELMENTE_NAO
  | NAO
deriving DecidableEq, Repr

inductive InferenceBasis where
  | direta
  | silencio
  | ausencia_confirmada
deriving DecidableEq, Repr

inductive AtividadePosMarco where
  | rotineira
  | constritiva
  | silencio
deriving DecidableEq, Repr

structure Node1Plausibilidade where
  answer : String
  reasoning : String
deriving DecidableEq, Repr

structure Node2Materializacao where
  answer : String
  reasoning : String
deriving DecidableEq, Repr

structure Marco where
  data : String
  evento : String
  descricao : Option String
deriving DecidableEq, Repr

structure MarcoMaisRecente where
  data : String
  evento : String
  e_mesmo_que_primario : Bool
  relevancia : Option String
deriving DecidableEq, Repr

structure MarcoRenovacao where
  data : String
  evento : String
  descricao : String
deriving DecidableEq, Repr

structure ContextoEspecial where
  detected : Bool
  evidence : Option String
deriving DecidableEq, Repr

structure ContextosEspeciais where
  processo_suspenso : ContextoEspecial
  recuperacao_judicial : ContextoEspecial
  acordo_em_negociacao : ContextoEspecial
  fase_recursal : ContextoEspecial
  multiplos_reus : ContextoEspecial
  falencia_devedor : ContextoEspecial
deriving DecidableEq, Repr

structure Node3MarcosTemporais where
  marco_primario : Marco
  marco_mais_recente : MarcoMaisRecente
  marco_renovacao : Option MarcoRenovacao
  atividade_pos_marco : AtividadePosMarco
  contextos_especiais : ContextosEspeciais
  resumo : String
deriving DecidableEq, Repr

structure Node4GarantiaExistente where
  answer : GarantiaAnswer
  inference_basis : InferenceBasis
  reasoning : String
deriving DecidableEq, Repr

structure Details5A where
  tipo_garantia : TipoGarantia
  tipo_garantia_detalhe : Option String
  data_oferecimento_garantia : Option String
  garantia_onerosa : Bool
  is_candidate : String
  reasoning : String
deriving DecidableEq, Repr

structure Details5B where
  ameaca_constricao_iminente : Bool
  executado_ativo : Bool
  processo_encerrado : Bool
  is_candidate : String
  reasoning : String
deriving DecidableEq, Repr

structure Node5AnaliseEspecifica where
  type_active : String
  details_5a : Option Details5A
  details_5b : Option Details5B
deriving DecidableEq, Repr

structure VariaveisLLM where
  garantia_inferida_silencio : Bool
  tipo_garantia_desconhecido : Bool
  evidencia_direta_garantia_onerosa : Bool
  executado_demonstrou_passividade : Bool
deriving DecidableEq, Repr

structure LLMResponseV3 where
  node_1_plausibilidade : Node1Plausibilidade
  node_2_materializacao : Option Node2Materializacao
  node_3_marcos_temporais : Option Node3MarcosTemporais
  node_4_garantia_existente : Option Node4GarantiaExistente
  node_5_analise_especifica : Option Node5AnaliseEspecifica
  variaveis_llm : VariaveisLLM
deriving DecidableEq, Repr

/-! ## Scoring result types (src/scoring/types.py) -/

structure CalculatedTemporalData where
  dias_desde_marco_primario : Int
  dias_desde_marco_mais_recente : Int
deriving DecidableEq, Repr

structure ScoreBreakdown where
  timing_base : TimingBase
  base : Int
  penalties : Int
  penalty_details : List String
  bonus : Int
  bonus_details : List String
  grave_multiplier : Rat
  final : Int
deriving DecidableEq, Repr

structure ScoringResult where
  score_breakdown : ScoreBreakdown
  temporal_data : Option CalculatedTemporalData
deriving DecidableEq, Repr

/-! ## Dates (datetime.date as used by src/scoring/temporal.py) -/

/-- A valid proleptic-Gregorian calendar date, as held by datetime.date. -/
structure PyDate where
  year : Nat
  month : Nat
  day : Nat
deriving DecidableEq, Repr

def isLeapYear (y : Nat) : Bool :=
  y % 4 == 0 && (y % 100 != 0 || y % 400 == 0)

def daysInMonth (y m : Nat) : Nat :=
  if m = 2 then (if isLeapYear y then 29 else 28)
  else if m = 4 ∨ m = 6 ∨ m = 9 ∨ m = 11 then 30
  else 31

/-- datetime.date(year, month, day): validates the calendar date and raises
ValueError outside the supported range, which parse_date catches; modelled
as an Option-returning smart constructor. -/
def mkPyDate (year month day : Int) : Option PyDate :=
  if 1 ≤ year ∧ year ≤ 9999 ∧ 1 ≤ month ∧ month ≤ 12 ∧ 1 ≤ day ∧
      day ≤ (daysInMonth year.toNat month.toNat : Int)
  then some ⟨year.toNat, month.toNat, day.toNat⟩
  else none

def daysBeforeMonth (y m : Nat) : Nat :=
  (List.range (m - 1)).foldl (fun acc i => acc + daysInMonth y (i + 1)) 0

/-- Proleptic-Gregorian ordinal of a date (date.toordinal: 01/01/0001 is 1),
through which datetime.date subtraction yields its day count. -/
def toOrdinal (d : PyDate) : Int :=
  ((365 * (d.year - 1) + (d.year - 1) / 4 - (d.year - 1) / 100 +
    (d.year - 1) / 400 + daysBeforeMonth d.year d.month + d.day : Nat) : Int)

/-! ## Temporal calculator (src/scoring/temporal.py) -/

/-- The whitespace code points Python int(str) strips from either end of
its argument (the CPython set: ASCII 09-0D and 20, NEL, NBSP, and the
Unicode space separators). -/
def pyIsSpace (c : Char) : Bool :=
  decide (c.toNat = 9 ∨ c.toNat = 10 ∨ c.toNat = 11 ∨ c.toNat = 12 ∨
    c.toNat = 13 ∨ c.toNat = 32 ∨ c.toNat = 133 ∨ c.toNat = 160 ∨
    c.toNat = 5760 ∨ (8192 ≤ c.toNat ∧ c.toNat ≤ 8202) ∨ c.toNat = 8232 ∨
    c.toNat = 8233 ∨ c.toNat = 8239 ∨ c.toNat = 8287 ∨ c.toNat = 12288)

/-- The zero code point of every non-ASCII Unicode decimal-digit (Nd) run
in CPython's unicodedata tables; each run is ten consecutive code points
carrying the decimal values 0 through 9. -/
def ndZeros : List Nat :=
  [1632, 1776, 1984, 2406, 2534, 2662, 2790, 2918, 3046, 3174, 3302, 3430,
   3558, 3664, 3792, 3872, 4160, 4240, 6112, 6160, 6470, 6608, 6784, 6800,
   6992, 7088, 7232, 7248, 42528, 43216, 43264, 43472, 43504, 43600, 44016,
   65296, 66720, 68912, 69734, 69872, 69942, 70096, 70384, 70736, 70864,
   71248, 71360, 71472, 71904, 72016, 72784, 73040, 73120, 92768, 92864,
   93008, 120782, 120792, 120802, 120812, 120822, 123200, 123632, 125264,
   130032]

/-- The decimal value of a Unicode decimal digit as Python int() reads it:
an ASCII digit, or a member of one of the non-ASCII Nd runs. -/
def pyDigitVal (c : Char) : Option Nat :=
  if 48 ≤ c.toNat ∧ c.toNat ≤ 57 then some (c.toNat - 48)
  else (ndZeros.find? (fun z => decide (z ≤ c.toNat ∧ c.toNat < z + 10))).map
    (fun z => c.toNat - z)

/-- The digit tail of int(str): every character is a decimal digit, except
that a single underscore may sit between two digits. -/
def pyDigitsAux : List Char → Nat → Option Nat
  | [], acc => some acc
  | c :: rest, acc =>
    if c = '_' then
      match rest with
      | [] => none
      | c2 :: rest2 =>
        match pyDigitVal c2 with
        | some v => pyDigitsAux rest2 (acc * 10 + v)
        | none => none
    else
      match pyDigitVal c with
      | some v => pyDigitsAux rest (acc * 10 + v)
      | none => none

/-- The digit part of int(str): at least one digit (never a leading
underscore), then the digit-and-underscore tail. -/
def pyDigits (cs : List Char) : Option Nat :=
  match cs with
  | [] => none
  | c :: rest =>
    match pyDigitVal c with
    | some v => pyDigitsAux rest v
    | none => none

/-- Strip int()-whitespace from both ends. -/
def stripPy (cs : List Char) : List Char :=
  ((cs.dropWhile pyIsSpace).reverse.dropWhile pyIsSpace).reverse

/-- Python int(str) on a date field: strip surrounding whitespace, read an
optional ASCII sign, then Unicode decimal digits with single underscores
allowed between digits; any other shape raises ValueError, which
parse_date catches — modelled as none. -/
def pyInt (cs : List Char) : Option Int :=
  match stripPy cs with
  | [] => none
  | c :: rest =>
    if c = '-' then (pyDigits rest).map (fun n => -(n : Int))
    else if c = '+' then (pyDigits rest).map (fun n => (n : Int))
    else (pyDigits (c :: rest)).map (fun n => (n : Int))

/-- Python str.split on a single-character separator, on the char list. -/
def splitSlash (cs : List Char) : List (List Char) :=
  match cs with
  | [] => [[]]
  | c :: rest =>
    let r := splitSlash rest
    if c = '/' then [] :: r
    else
      match r with
      | h :: t => (c :: h) :: t
      | [] => [[c]]

/-- temporal.py parse_date: split on the slash, require three fields,
read them as day, month, year integers, build the calendar date;
any failure yields None instead of an exception. -/
def parse_date (date_str : String) : Option PyDate :=
  if date_str = "" then none
  else
    let parts := splitSlash date_str.toList
    if parts.length ≠ 3 then none
    else
      match parts with
      | [p1, p2, p3] =>
        match pyInt p1, pyInt p2, pyInt p3 with
        | some day, some month, some year => mkPyDate year month day
        | _, _, _ => none
      | _ => none

/-- temporal.py diff_in_days: (date1 - date2).days. -/
def diff_in_days (date1 date2 : PyDate) : Int :=
  toOrdinal date1 - toOrdinal date2

/-- temporal.py calculate_temporal_data with an explicit reference date. -/
def calculate_temporal_data (response : LLMResponseV3) (today : PyDate) :
    Option CalculatedTemporalData :=
  match response.node_3_marcos_temporais with
  | none => none
  | some marcos =>
    match parse_date marcos.marco_primario.data,
          parse_date marcos.marco_mais_recente.data with
    | some marco_primario_date, some marco_mais_recente_date =>
      some ⟨diff_in_days today marco_primario_date,
            diff_in_days today marco_mais_recente_date⟩
    | _, _ => none

/-! ## Score calculator (src/scoring/calculator.py) -/

def BASE_SCORES : TimingBase → Int
  | TimingBase.AGORA_CONSTITUICAO => 9
  | TimingBase.AGORA_SUBSTITUICAO => 9
  | TimingBase.ACOMPANHAR => 6
  | TimingBase.PASSOU => 2

def TIPOS_GARANTIA_SUBSTITUIVEIS : List TipoGarantia :=
  [TipoGarantia.deposito_judicial,
   TipoGarantia.penhora_dinheiro,
   TipoGarantia.penhora_bens_moveis,
   TipoGarantia.penhora_bens_imoveis,
   TipoGarantia.fianca_bancaria,
   TipoGarantia.caucao_real]

structure ScoringPathResult where
  timing : TimingBase
  penalties : List String
  bonuses : List String
  grave_multiplier : Rat
deriving DecidableEq, Repr

/-- The intermediate (timing, penalties, bonuses) state after one block of
a path scorer; the blocks grow the two tag lists by appending. -/
structure PathState where
  timing : TimingBase
  penalties : List String
  bonuses : List String
deriving DecidableEq, Repr

/-- The 5B decision table on (dias, ameaca): the block of calculate_5b_scoring
headed "Tabela de Decisão 5B", started from empty tag lists. -/
def tabela5b (dias : Int) (ameaca : Bool) : PathState :=
  if dias < 15 then
    { timing := TimingBase.AGORA_CONSTITUICAO
      penalties := []
      bonuses := if ameaca then ["marco_recente_15_dias", "ameaca_constricao_iminente"]
                 else ["marco_recente_15_dias"] }
  else if dias < 60 then
    { timing := TimingBase.AGORA_CONSTITUICAO
      penalties := []
      bonuses := if ameaca then ["ameaca_constricao_iminente"] else [] }
  else if dias < 90 then
    if ameaca then
      { timing := TimingBase.AGORA_CONSTITUICAO
        penalties := []
        bonuses := ["ameaca_constricao_iminente"] }
    else
      { timing := TimingBase.ACOMPANHAR
        penalties := ["marco_acima_60_dias"]
        bonuses := [] }
  else
    if ameaca then
      { timing := TimingBase.AGORA_CONSTITUICAO
        penalties := ["marco_acima_90_dias"]
        bonuses := ["ameaca_constricao_iminente"] }
    else
      { timing := TimingBase.ACOMPANHAR
        penalties := if dias > 180 then ["marco_acima_90_dias", "marco_acima_180_dias"]
                     else ["marco_acima_90_dias"]
        bonuses := [] }

/-- The shared special-context test of both scorers: exactly four of the six
detectors participate (not fase_recursal, not multiplos_reus). -/
def tem_contexto_especial (marcos : Node3MarcosTemporais) : Bool :=
  marcos.contextos_especiais.recuperacao_judicial.detected
    || marcos.contextos_especiais.falencia_devedor.detected
    || marcos.contextos_especiais.acordo_em_negociacao.detected
    || marcos.contextos_especiais.processo_suspenso.detected

/-- The shared "Contextos Especiais" block: append the penalty tag and
downgrade the given AGORA timing to ACOMPANHAR. -/
def applyContextoEspecial (agora : TimingBase) (marcos : Node3MarcosTemporais)
    (st : PathState) : PathState :=
  if tem_contexto_especial marcos then
    { timing := if st.timing = agora then TimingBase.ACOMPANHAR else st.timing
      penalties := st.penalties ++ ["contexto_especial_presente"]
      bonuses := st.bonuses }
  else st

/-- calculate_5b_scoring (calculator.py): constitution path. -/
def calculate_5b_scoring (response : LLMResponseV3)
    (temporal : CalculatedTemporalData) : ScoringPathResult :=
  let details := (response.node_5_analise_especifica).bind (fun n5 => n5.details_5b)
  let marcosOpt := response.node_3_marcos_temporais
  let variaveis := response.variaveis_llm
  match details, marcosOpt with
  | some details, some marcos =>
    if details.processo_encerrado then
      { timing := TimingBase.PASSOU, penalties := [], bonuses := [], grave_multiplier := 1 }
    else
      let dias := temporal.dias_desde_marco_mais_recente
      let ameaca := details.ameaca_constricao_iminente
      let st0 := tabela5b dias ameaca
      let st1 := applyContextoEspecial TimingBase.AGORA_CONSTITUICAO marcos st0
      let passividade :=
        temporal.dias_desde_marco_primario > 365 &&
          variaveis.executado_demonstrou_passividade
      let penalties2 :=
        if passividade then st1.penalties ++ ["passividade_historica_cliente"]
        else st1.penalties
      let grave_multiplier : Rat := if passividade then 3/4 else 1
      let bonuses2 :=
        if details.executado_ativo then st1.bonuses ++ ["executado_ativo"]
        else st1.bonuses
      { timing := st1.timing, penalties := penalties2, bonuses := bonuses2,
        grave_multiplier := grave_multiplier }
  | _, _ =>
    { timing := TimingBase.PASSOU, penalties := [], bonuses := [], grave_multiplier := 1 }

/-- The 5A decision table on (tipo_garantia, garantia_onerosa): the block of
calculate_5a_scoring headed "Tabela de Decisão 5A" after the seguro_garantia
early return, started from empty tag lists. -/
def tabela5a (tipo_garantia : TipoGarantia) (garantia_onerosa : Bool) : PathState :=
  if garantia_onerosa && (TIPOS_GARANTIA_SUBSTITUIVEIS.contains tipo_garantia) then
    { timing := TimingBase.AGORA_SUBSTITUICAO
      penalties := []
      bonuses := ["evidencia_direta_garantia_onerosa"] }
  else if tipo_garantia = TipoGarantia.indefinido then
    { timing := TimingBase.ACOMPANHAR
      penalties := ["tipo_garantia_desconhecido"]
      bonuses := [] }
  else
    { timing := TimingBase.ACOMPANHAR, penalties := [], bonuses := [] }

/-- The "Incerteza sobre Garantia Existente" block of calculate_5a_scoring. -/
def applyNode4 (node4Opt : Option Node4GarantiaExistente) (variaveis : VariaveisLLM)
    (st : PathState) : PathState :=
  match node4Opt with
  | none => st
  | some node4 =>
    let p1 :=
      if node4.answer = GarantiaAnswer.PROVAVELMENTE_SIM then
        st.penalties ++ ["garantia_provavel_nao_confirmada"]
      else if node4.answer = GarantiaAnswer.INCERTO then
        st.penalties ++ ["garantia_incerta"]
      else st.penalties
    let p2 :=
      if node4.inference_basis = InferenceBasis.silencio
          || variaveis.garantia_inferida_silencio then
        p1 ++ ["garantia_inferida_silencio"]
      else p1
    { timing := st.timing, penalties := p2, bonuses := st.bonuses }

/-- calculate_5a_scoring (calculator.py): substitution path. -/
def calculate_5a_scoring (response : LLMResponseV3)
    (temporal : CalculatedTemporalData) : ScoringPathResult :=
  let details := (response.node_5_analise_especifica).bind (fun n5 => n5.details_5a)
  let marcosOpt := response.node_3_marcos_temporais
  let variaveis := response.variaveis_llm
  let node4 := response.node_4_garantia_existente
  match details, marcosOpt with
  | some details, some marcos =>
    if details.tipo_garantia = TipoGarantia.seguro_garantia then
      { timing := TimingBase.PASSOU, penalties := [], bonuses := [], grave_multiplier := 1 }
    else
      let st0 := tabela5a details.tipo_garantia details.garantia_onerosa
      let st1 := applyNode4 node4 variaveis st0
      let dias := temporal.dias_desde_marco_mais_recente
      let p1 := if dias > 90 then st1.penalties ++ ["marco_acima_90_dias"] else st1.penalties
      let p2 := if dias > 180 then p1 ++ ["marco_acima_180_dias"] else p1
      let st2 : PathState := { timing := st1.timing, penalties := p2, bonuses := st1.bonuses }
      let st3 := applyContextoEspecial TimingBase.AGORA_SUBSTITUICAO marcos st2
      let passividade :=
        temporal.dias_desde_marco_primario > 365 &&
          variaveis.executado_demonstrou_passividade
      let penalties4 :=
        if passividade then st3.penalties ++ ["passividade_historica_cliente"]
        else st3.penalties
      let grave_multiplier : Rat := if passividade then 3/4 else 1
      { timing := st3.timing, penalties := penalties4, bonuses := st3.bonuses,
        grave_multiplier := grave_multiplier }
  | _, _ =>
    { timing := TimingBase.PASSOU, penalties := [], bonuses := [], grave_multiplier := 1 }

/-- Python round on an exact rational: round-half-to-even (banker's
rounding), the CPython default for round(float). -/
def pyRound (q : Rat) : Int :=
  let fl : Int := ⌊q⌋
  let fr : Rat := q - (fl : Rat)
  if fr < 1/2 then fl
  else if 1/2 < fr then fl + 1
  else if fl % 2 = 0 then fl else fl + 1

/-- The score-normalisation tail of calculate_score_v3 (calculator.py,
"Calcular score final"): base lookup, clamp, multiply, round. -/
def finalizeScore (sr : ScoringPathResult)
    (temporal_data : CalculatedTemporalData) : ScoringResult :=
  let base := BASE_SCORES sr.timing
  let penalty_count : Int := sr.penalties.length
  let bonus_count : Int := sr.bonuses.length
  let intermediate : Int := max 0 (min 10 (base - penalty_count + bonus_count))
  let final := pyRound ((intermediate : Rat) * sr.grave_multiplier)
  { score_breakdown :=
      { timing_base := sr.timing
        base := base
        penalties := -penalty_count
        penalty_details := sr.penalties
        bonus := bonus_count
        bonus_details := sr.bonuses
        grave_multiplier := sr.grave_multiplier
        final := final }
    temporal_data := some temporal_data }

/-- A diagnostic ACOMPANHAR fallback breakdown of calculate_score_v3:
base 6, one penalty detail, penalties and bonus fields left at 0. -/
def fallbackBreakdown (detail : String) : ScoreBreakdown :=
  { timing_base := TimingBase.ACOMPANHAR
    base := BASE_SCORES TimingBase.ACOMPANHAR
    penalties := 0
    penalty_details := [detail]
    bonus := 0
    bonus_details := []
    grave_multiplier := 1
    final := BASE_SCORES TimingBase.ACOMPANHAR }

/-- calculate_score_v3 (calculator.py) with an explicit reference date. -/
def calculate_score_v3 (response : LLMResponseV3) (today : PyDate) :
    Option ScoringResult :=
  if response.node_1_plausibilidade.answer = "NÃO" then
    some { score_breakdown :=
             { timing_base := TimingBase.PASSOU
               base := BASE_SCORES TimingBase.PASSOU
               penalties := 0
               penalty_details := []
               bonus := 0
               bonus_details := []
               grave_multiplier := 1
               final := BASE_SCORES TimingBase.PASSOU }
           temporal_data := none }
  else if (match response.node_2_materializacao with
           | some node2 => node2.answer == "NÃO"
           | none => false) then
    some { score_breakdown :=
             { timing_base := TimingBase.ACOMPANHAR
               base := BASE_SCORES TimingBase.ACOMPANHAR
               penalties := 0
               penalty_details := []
               bonus := 0
               bonus_details := []
               grave_multiplier := 1
               final := BASE_SCORES TimingBase.ACOMPANHAR }
           temporal_data := none }
  else
    match calculate_temporal_data response today with
    | none =>
      some { score_breakdown := fallbackBreakdown "Sem dados temporais válidos"
             temporal_data := none }
    | some temporal_data =>
      match response.node_5_analise_especifica with
      | none =>
        some { score_breakdown := fallbackBreakdown "Sem análise específica (node 5)"
               temporal_data := some temporal_data }
      | some node5 =>
        if node5.type_active = "5A_SUBSTITUICAO" then
          some (finalizeScore (calculate_5a_scoring response temporal_data) temporal_data)
        else if node5.type_active = "5B_CONSTITUICAO" then
          some (finalizeScore (calculate_5b_scoring response temporal_data) temporal_data)
        else
          some { score_breakdown :=
                   fallbackBreakdown ("Tipo de análise inválido: " ++ node5.type_active)
                 temporal_data := some temporal_data }

/-! ## Concrete fixtures used by witnesses and counterexamples -/

def ctxNone : ContextosEspeciais :=
  { processo_suspenso := ⟨false, none⟩
    recuperacao_judicial := ⟨false, none⟩
    acordo_em_negociacao := ⟨false, none⟩
    fase_recursal := ⟨false, none⟩
    multiplos_reus := ⟨false, none⟩
    falencia_devedor := ⟨false, none⟩ }

def ctxSuspenso : ContextosEspeciais :=
  { processo_suspenso := ⟨true, some "suspensão"⟩
    recuperacao_judicial := ⟨false, none⟩
    acordo_em_negociacao := ⟨false, none⟩
    fase_recursal := ⟨false, none⟩
    multiplos_reus := ⟨false, none⟩
    falencia_devedor := ⟨false, none⟩ }

def marcosRecentes : Node3MarcosTemporais :=
  { marco_primario := ⟨"01/01/2024", "Citação", none⟩
    marco_mais_recente := ⟨"01/01/2024", "Citação", true, none⟩
    marco_renovacao := none
    atividade_pos_marco := AtividadePosMarco.rotineira
    contextos_especiais := ctxNone
    resumo := "" }

def marcosDataInvalida : Node3MarcosTemporais :=
  { marco_primario := ⟨"2024-01-01", "Citação", none⟩
    marco_mais_recente := ⟨"2024-01-01", "Citação", true, none⟩
    marco_renovacao := none
    atividade_pos_marco := AtividadePosMarco.rotineira
    contextos_especiais := ctxNone
    resumo := "" }

def todayW : PyDate := ⟨2024, 1, 11⟩

def variaveisNeutras : VariaveisLLM := ⟨false, false, false, false⟩

def variaveisPassivas : VariaveisLLM := ⟨false, false, false, true⟩

def details5bAberto : Details5B :=
  { ameaca_constricao_iminente := false
    executado_ativo := false
    processo_encerrado := false
    is_candidate := "SIM"
    reasoning := "" }

def details5bEncerrado : Details5B :=
  { ameaca_constricao_iminente := false
    executado_ativo := false
    processo_encerrado := true
    is_candidate := "NÃO"
    reasoning := "" }

def details5aOnerosa : Details5A :=
  { tipo_garantia := TipoGarantia.fianca_bancaria
    tipo_garantia_detalhe := none
    data_oferecimento_garantia := none
    garantia_onerosa := true
    is_candidate := "SIM"
    reasoning := "" }

/-- A well-formed 5B response: node 1 SIM, node 2 SIM, recent markers,
open case, no threat, no special contexts. -/
def respCenario1 : LLMResponseV3 :=
  { node_1_plausibilidade := ⟨"SIM", ""⟩
    node_2_materializacao := some ⟨"SIM", ""⟩
    node_3_marcos_temporais := some marcosRecentes
    node_4_garantia_existente := none
    node_5_analise_especifica := some ⟨"5B_CONSTITUICAO", none, some details5bAberto⟩
    variaveis_llm := variaveisNeutras }

/-- A 5B-dispatched response whose detail payload is absent. -/
def respSemDetails5b : LLMResponseV3 :=
  { node_1_plausibilidade := ⟨"SIM", ""⟩
    node_2_materializacao := none
    node_3_marcos_temporais := some marcosRecentes
    node_4_garantia_existente := none
    node_5_analise_especifica := some ⟨"5B_CONSTITUICAO", none, none⟩
    variaveis_llm := variaveisNeutras }

/-- A 5A-dispatched response whose detail payload is absent. -/
def respSemDetails5a : LLMResponseV3 :=
  { node_1_plausibilidade := ⟨"SIM", ""⟩
    node_2_materializacao := none
    node_3_marcos_temporais := some marcosRecentes
    node_4_garantia_existente := none
    node_5_analise_especifica := some ⟨"5A_SUBSTITUICAO", none, none⟩
    variaveis_llm := variaveisNeutras }

/-- A legitimately closed 5B case. -/
def respEncerrado : LLMResponseV3 :=
  { node_1_plausibilidade := ⟨"SIM", ""⟩
    node_2_materializacao := none
    node_3_marcos_temporais := some marcosRecentes
    node_4_garantia_existente := none
    node_5_analise_especifica := some ⟨"5B_CONSTITUICAO", none, some details5bEncerrado⟩
    variaveis_llm := variaveisPassivas }

/-- No node 3 at all: the engine must take the no-temporal-data fallback. -/
def respSemMarcos : LLMResponseV3 :=
  { node_1_plausibilidade := ⟨"SIM", ""⟩
    node_2_materializacao := none
    node_3_marcos_temporais := none
    node_4_garantia_existente := none
    node_5_analise_especifica := some ⟨"5B_CONSTITUICAO", none, some details5bAberto⟩
    variaveis_llm := variaveisNeutras }

/-- Markers present but in an unparseable format. -/
def respDataInvalida : LLMResponseV3 :=
  { node_1_plausibilidade := ⟨"SIM", ""⟩
    node_2_materializacao := none
    node_3_marcos_temporais := some marcosDataInvalida
    node_4_garantia_existente := none
    node_5_analise_especifica := some ⟨"5B_CONSTITUICAO", none, some details5bAberto⟩
    variaveis_llm := variaveisNeutras }

def respNo1 : LLMResponseV3 :=
  { node_1_plausibilidade := ⟨"NÃO", "sem plausibilidade"⟩
    node_2_materializacao := none
    node_3_marcos_temporais := some marcosRecentes
    node_4_garantia_existente := none
    node_5_analise_especifica := some ⟨"5B_CONSTITUICAO", none, some details5bAberto⟩
    variaveis_llm := variaveisPassivas }

def marcosSuspenso : Node3MarcosTemporais :=
  { marcosRecentes with contextos_especiais := ctxSuspenso }

/-- A 5B response with a fresh marker inside a suspended case. -/
def respCtxSuspenso : LLMResponseV3 :=
  { node_1_plausibilidade := ⟨"SIM", ""⟩
    node_2_materializacao := none
    node_3_marcos_temporais := some marcosSuspenso
    node_4_garantia_existente := none
    node_5_analise_especifica := some ⟨"5B_CONSTITUICAO", none, some details5bAberto⟩
    variaveis_llm := variaveisNeutras }

/-- An open 5B case whose debtor showed historical passivity. -/
def respPassivo : LLMResponseV3 :=
  { node_1_plausibilidade := ⟨"SIM", ""⟩
    node_2_materializacao := none
    node_3_marcos_temporais := some marcosRecentes
    node_4_garantia_existente := none
    node_5_analise_especifica := some ⟨"5B_CONSTITUICAO", none, some details5bAberto⟩
    variaveis_llm := variaveisPassivas }

def tdRecente : CalculatedTemporalData := ⟨10, 10⟩

def tdAntigo : CalculatedTemporalData := ⟨400, 100⟩
/-! ## Helper lemmas -/

lemma tabela5b_timing (dias : Int) (ameaca : Bool) :
    (tabela5b dias ameaca).timing = TimingBase.AGORA_CONSTITUICAO ∨
    (tabela5b dias ameaca).timing = TimingBase.ACOMPANHAR := by
  unfold tabela5b
  split_ifs <;> simp

lemma tabela5b_penalty_tags (dias : Int) (ameaca : Bool) :
    ∀ t ∈ (tabela5b dias ameaca).penalties,
      t = "marco_acima_60_dias" ∨ t = "marco_acima_90_dias" ∨
      t = "marco_acima_180_dias" := by
  unfold tabela5b
  split_ifs <;> intro t ht <;> simp at ht <;> tauto

lemma tabela5a_timing (tipo : TipoGarantia) (onerosa : Bool) :
    (tabela5a tipo onerosa).timing = TimingBase.AGORA_SUBSTITUICAO ∨
    (tabela5a tipo onerosa).timing = TimingBase.ACOMPANHAR := by
  unfold tabela5a
  split_ifs <;> simp

lemma tabela5a_penalty_tags (tipo : TipoGarantia) (onerosa : Bool) :
    ∀ t ∈ (tabela5a tipo onerosa).penalties, t = "tipo_garantia_desconhecido" := by
  intro t ht
  unfold tabela5a at ht
  split_ifs at ht
  · simp at ht
  · simp at ht; exact ht
  · simp at ht

lemma applyNode4_timing (n4 : Option Node4GarantiaExistente) (v : VariaveisLLM)
    (st : PathState) : (applyNode4 n4 v st).timing = st.timing := by
  cases n4 <;> simp [applyNode4]

lemma applyNode4_bonuses (n4 : Option Node4GarantiaExistente) (v : VariaveisLLM)
    (st : PathState) : (applyNode4 n4 v st).bonuses = st.bonuses := by
  cases n4 <;> simp [applyNode4]

lemma applyNode4_penalty_tags (n4 : Option Node4GarantiaExistente) (v : VariaveisLLM)
    (st : PathState) :
    ∀ t ∈ (applyNode4 n4 v st).penalties,
      t ∈ st.penalties ∨ t = "garantia_provavel_nao_confirmada" ∨
      t = "garantia_incerta" ∨ t = "garantia_inferida_silencio" := by
  cases n4 with
  | none => intro t ht; exact Or.inl ht
  | some n4 =>
    intro t ht
    simp only [applyNode4] at ht
    split_ifs at ht <;> (try simp [List.mem_append] at ht) <;> tauto

lemma applyNode4_penalties_prefix (n4 : Option Node4GarantiaExistente)
    (v : VariaveisLLM) (st : PathState) :
    st.penalties <+: (applyNode4 n4 v st).penalties := by
  cases n4 with
  | none => simp [applyNode4]
  | some n4 =>
    simp only [applyNode4]
    split_ifs <;>
      first
        | exact List.prefix_rfl
        | exact List.prefix_append _ _
        | exact (List.prefix_append _ _).trans (List.prefix_append _ _)

lemma applyContexto_timing (agora : TimingBase) (m : Node3MarcosTemporais)
    (st : PathState) :
    (applyContextoEspecial agora m st).timing =
      if tem_contexto_especial m then
        (if st.timing = agora then TimingBase.ACOMPANHAR else st.timing)
      else st.timing := by
  unfold applyContextoEspecial
  split_ifs <;> simp_all

lemma applyContexto_bonuses (agora : TimingBase) (m : Node3MarcosTemporais)
    (st : PathState) :
    (applyContextoEspecial agora m st).bonuses = st.bonuses := by
  unfold applyContextoEspecial
  split_ifs <;> simp

lemma applyContexto_penalties (agora : TimingBase) (m : Node3MarcosTemporais)
    (st : PathState) :
    (applyContextoEspecial agora m st).penalties =
      if tem_contexto_especial m then st.penalties ++ ["contexto_especial_presente"]
      else st.penalties := by
  unfold applyContextoEspecial
  split_ifs <;> simp_all

lemma pyRound_int_mul_one (i : Int) : pyRound ((i : Rat) * 1) = i := by
  simp [pyRound]

lemma pyRound_bounds (i : Int) (h0 : 0 ≤ i) (h10 : i ≤ 10) (m : Rat)
    (hm : m = 1 ∨ m = 3/4) :
    0 ≤ pyRound ((i : Rat) * m) ∧ pyRound ((i : Rat) * m) ≤ 10 := by
  rcases hm with rfl | rfl
  · rw [pyRound_int_mul_one]; exact ⟨h0, h10⟩
  · interval_cases i <;> constructor <;> (simp only [pyRound]; norm_num)

/-- Controlled unfolding of calculate_5b_scoring on the open-case path. -/
lemma calc5b_open (resp : LLMResponseV3) (temporal : CalculatedTemporalData)
    (n5 : Node5AnaliseEspecifica) (d : Details5B) (m : Node3MarcosTemporais)
    (h5 : resp.node_5_analise_especifica = some n5)
    (hd : n5.details_5b = some d)
    (hm : resp.node_3_marcos_temporais = some m)
    (hnc : d.processo_encerrado = false) :
    calculate_5b_scoring resp temporal =
      (let st1 := applyContextoEspecial TimingBase.AGORA_CONSTITUICAO m
        (tabela5b temporal.dias_desde_marco_mais_recente d.ameaca_constricao_iminente)
      let passividade := temporal.dias_desde_marco_primario > 365 &&
        resp.variaveis_llm.executado_demonstrou_passividade
      { timing := st1.timing
        penalties := if passividade then st1.penalties ++ ["passividade_historica_cliente"]
                     else st1.penalties
        bonuses := if d.executado_ativo then st1.bonuses ++ ["executado_ativo"]
                   else st1.bonuses
        grave_multiplier := if passividade then 3/4 else 1 }) := by
  simp only [calculate_5b_scoring, h5, hd, hm, Option.some_bind, hnc,
    Bool.false_eq_true, if_false]

/-- Controlled unfolding of calculate_5a_scoring past the seguro_garantia
early return. -/
lemma calc5a_open (resp : LLMResponseV3) (temporal : CalculatedTemporalData)
    (n5 : Node5AnaliseEspecifica) (d : Details5A) (m : Node3MarcosTemporais)
    (h5 : resp.node_5_analise_especifica = some n5)
    (hd : n5.details_5a = some d)
    (hm : resp.node_3_marcos_temporais = some m)
    (hseg : d.tipo_garantia ≠ TipoGarantia.seguro_garantia) :
    calculate_5a_scoring resp temporal =
      (let st1 := applyNode4 resp.node_4_garantia_existente resp.variaveis_llm
        (tabela5a d.tipo_garantia d.garantia_onerosa)
      let p1 := if temporal.dias_desde_marco_mais_recente > 90 then
          st1.penalties ++ ["marco_acima_90_dias"] else st1.penalties
      let p2 := if temporal.dias_desde_marco_mais_recente > 180 then
          p1 ++ ["marco_acima_180_dias"] else p1
      let st3 := applyContextoEspecial TimingBase.AGORA_SUBSTITUICAO m
        { timing := st1.timing, penalties := p2, bonuses := st1.bonuses }
      let passividade := temporal.dias_desde_marco_primario > 365 &&
        resp.variaveis_llm.executado_demonstrou_passividade
      { timing := st3.timing
        penalties := if passividade then st3.penalties ++ ["passividade_historica_cliente"]
                     else st3.penalties
        bonuses := st3.bonuses
        grave_multiplier := if passividade then 3/4 else 1 }) := by
  simp only [calculate_5a_scoring, h5, hd, hm, Option.some_bind]
  rw [if_neg hseg]

/-- Both scorers only ever emit a multiplier of 1 or 3/4. -/
lemma calc5b_mult (resp : LLMResponseV3) (temporal : CalculatedTemporalData) :
    (calculate_5b_scoring resp temporal).grave_multiplier = 1 ∨
    (calculate_5b_scoring resp temporal).grave_multiplier = 3/4 := by
  unfold calculate_5b_scoring
  rcases resp.node_5_analise_especifica.bind (fun n5 => n5.details_5b) with _ | d <;>
    rcases resp.node_3_marcos_temporais with _ | m <;>
    simp only [] <;> (try split_ifs) <;> simp

lemma calc5a_mult (resp : LLMResponseV3) (temporal : CalculatedTemporalData) :
    (calculate_5a_scoring resp temporal).grave_multiplier = 1 ∨
    (calculate_5a_scoring resp temporal).grave_multiplier = 3/4 := by
  unfold calculate_5a_scoring
  rcases resp.node_5_analise_especifica.bind (fun n5 => n5.details_5a) with _ | d <;>
    rcases resp.node_3_marcos_temporais with _ | m <;>
    simp only [] <;> (try split_ifs) <;> simp

/-- Splitting membership in a conditionally extended list. -/
lemma mem_if_append {l : List String} {a t : String} {c : Prop} [Decidable c]
    (h : t ∈ (if c then l ++ [a] else l)) : t ∈ l ∨ t = a := by
  split_ifs at h
  · rcases List.mem_append.mp h with h | h
    · exact Or.inl h
    · simp at h; exact Or.inr h
  · exact Or.inl h

/-! ## Claim theorems -/

/-- C7: whenever node 1 answers NO, the engine short-circuits to the fixed
PASSOU breakdown (base 2, final 2, empty tag lists, multiplier 1.0) with no
temporal data computed, independently of every other field and of the
reference date. -/
theorem claim7_node1_nao (response : LLMResponseV3) (today : PyDate)
    (h1 : response.node_1_plausibilidade.answer = "NÃO") :
    calculate_score_v3 response today =
      some { score_breakdown :=
               { timing_base := TimingBase.PASSOU, base := 2, penalties := 0,
                 penalty_details := [], bonus := 0, bonus_details := [],
                 grave_multiplier := 1, final := 2 }
             temporal_data := none } := by
  simp [calculate_score_v3, h1, BASE_SCORES]

/-- Witness for C7 at a concrete assessment carrying every optional node. -/
theorem claim7_witness :
    respNo1.node_1_plausibilidade.answer = "NÃO" ∧
    calculate_score_v3 respNo1 todayW =
      some { score_breakdown :=
               { timing_base := TimingBase.PASSOU, base := 2, penalties := 0,
                 penalty_details := [], bonus := 0, bonus_details := [],
                 grave_multiplier := 1, final := 2 }
             temporal_data := none } :=
  ⟨rfl, claim7_node1_nao respNo1 todayW rfl⟩

/-- C9: calculate_score_v3 is total: despite the Optional return annotation,
every input yields some ScoringResult — no branch returns None. -/
theorem claim9_never_none (response : LLMResponseV3) (today : PyDate) :
    ∃ sr : ScoringResult, calculate_score_v3 response today = some sr := by
  unfold calculate_score_v3
  repeat' split
  all_goals exact ⟨_, rfl⟩

/-- C3 counterexample: a 5B dispatch whose details_5b payload is absent does
not fail loudly — it returns the plain neutral PASSOU tuple, the very same
value a legitimately closed case produces; the 5A scorer behaves alike. -/
theorem claim3_counterexample :
    calculate_5b_scoring respSemDetails5b tdRecente =
      { timing := TimingBase.PASSOU, penalties := [], bonuses := [],
        grave_multiplier := 1 } ∧
    calculate_5b_scoring respSemDetails5b tdRecente =
      calculate_5b_scoring respEncerrado tdRecente ∧
    calculate_5a_scoring respSemDetails5a tdRecente =
      { timing := TimingBase.PASSOU, penalties := [], bonuses := [],
        grave_multiplier := 1 } :=
  ⟨rfl, rfl, rfl⟩

/-- C3 (amended): a path scorer invoked while its required detail payload or
the node 3 markers are absent silently returns the neutral scoring tuple
(PASSOU, no tags, multiplier 1.0) instead of surfacing the contract
violation. -/
theorem claim3_missing_payload_silent (resp : LLMResponseV3)
    (temporal : CalculatedTemporalData) :
    ((resp.node_5_analise_especifica.bind (fun n5 => n5.details_5b) = none ∨
        resp.node_3_marcos_temporais = none) →
      calculate_5b_scoring resp temporal =
        { timing := TimingBase.PASSOU, penalties := [], bonuses := [],
          grave_multiplier := 1 }) ∧
    ((resp.node_5_analise_especifica.bind (fun n5 => n5.details_5a) = none ∨
        resp.node_3_marcos_temporais = none) →
      calculate_5a_scoring resp temporal =
        { timing := TimingBase.PASSOU, penalties := [], bonuses := [],
          grave_multiplier := 1 }) := by
  constructor
  · intro h
    rcases hd : (resp.node_5_analise_especifica.bind fun n5 => n5.details_5b) with _ | d
    · rcases hm : resp.node_3_marcos_temporais with _ | m <;>
        simp [calculate_5b_scoring, hd, hm]
    · rcases hm : resp.node_3_marcos_temporais with _ | m
      · simp [calculate_5b_scoring, hd, hm]
      · rcases h with h | h <;> simp_all
  · intro h
    rcases hd : (resp.node_5_analise_especifica.bind fun n5 => n5.details_5a) with _ | d
    · rcases hm : resp.node_3_marcos_temporais with _ | m <;>
        simp [calculate_5a_scoring, hd, hm]
    · rcases hm : resp.node_3_marcos_temporais with _ | m
      · simp [calculate_5a_scoring, hd, hm]
      · rcases h with h | h <;> simp_all

/-- Witness for C3 (amended) at the concrete missing-payload assessment. -/
theorem claim3_witness :
    (respSemDetails5b.node_5_analise_especifica.bind (fun n5 => n5.details_5b) = none ∨
      respSemDetails5b.node_3_marcos_temporais = none) ∧
    calculate_5b_scoring respSemDetails5b tdRecente =
      { timing := TimingBase.PASSOU, penalties := [], bonuses := [],
        grave_multiplier := 1 } :=
  ⟨Or.inl rfl,
   (claim3_missing_payload_silent respSemDetails5b tdRecente).1 (Or.inl rfl)⟩

/-- The node 1 and node 2 gates pass when node 1 answers SIM and node 2 is
absent or answers SIM; the engine then proceeds on the temporal data. -/
lemma engine_no_temporal (resp : LLMResponseV3) (today : PyDate)
    (h1 : resp.node_1_plausibilidade.answer = "SIM")
    (h2 : ∀ n2, resp.node_2_materializacao = some n2 → n2.answer = "SIM")
    (ht : calculate_temporal_data resp today = none) :
    calculate_score_v3 resp today =
      some { score_breakdown := fallbackBreakdown "Sem dados temporais válidos"
             temporal_data := none } := by
  have hb : (match resp.node_2_materializacao with
             | some node2 => node2.answer == "NÃO"
             | none => false) = false := by
    rcases hn : resp.node_2_materializacao with _ | n2
    · rfl
    · have ha := h2 n2 hn
      simp [ha]
  unfold calculate_score_v3
  rw [h1, if_neg (by decide : ¬("SIM" : String) = "NÃO"), hb]
  simp only [Bool.false_eq_true, if_false]
  rw [ht]

/-- Past the gates with temporal data, a node 5 tagged 5B_CONSTITUICAO
dispatches to the constitution scorer and finalizes its tuple. -/
lemma engine_dispatch_5b (resp : LLMResponseV3) (today : PyDate)
    (n5 : Node5AnaliseEspecifica) (td : CalculatedTemporalData)
    (h1 : resp.node_1_plausibilidade.answer = "SIM")
    (h2 : ∀ n2, resp.node_2_materializacao = some n2 → n2.answer = "SIM")
    (ht : calculate_temporal_data resp today = some td)
    (h5 : resp.node_5_analise_especifica = some n5)
    (hty : n5.type_active = "5B_CONSTITUICAO") :
    calculate_score_v3 resp today =
      some (finalizeScore (calculate_5b_scoring resp td) td) := by
  have hb : (match resp.node_2_materializacao with
             | some node2 => node2.answer == "NÃO"
             | none => false) = false := by
    rcases hn : resp.node_2_materializacao with _ | n2
    · rfl
    · have ha := h2 n2 hn
      simp [ha]
  unfold calculate_score_v3
  rw [h1, if_neg (by decide : ¬("SIM" : String) = "NÃO"), hb]
  simp only [Bool.false_eq_true, if_false]
  rw [ht, h5]
  simp [hty]

/-- Past the gates with temporal data, a node 5 tagged 5A_SUBSTITUICAO
dispatches to the substitution scorer and finalizes its tuple. -/
lemma engine_dispatch_5a (resp : LLMResponseV3) (today : PyDate)
    (n5 : Node5AnaliseEspecifica) (td : CalculatedTemporalData)
    (h1 : resp.node_1_plausibilidade.answer = "SIM")
    (h2 : ∀ n2, resp.node_2_materializacao = some n2 → n2.answer = "SIM")
    (ht : calculate_temporal_data resp today = some td)
    (h5 : resp.node_5_analise_especifica = some n5)
    (hty : n5.type_active = "5A_SUBSTITUICAO") :
    calculate_score_v3 resp today =
      some (finalizeScore (calculate_5a_scoring resp td) td) := by
  have hb : (match resp.node_2_materializacao with
             | some node2 => node2.answer == "NÃO"
             | none => false) = false := by
    rcases hn : resp.node_2_materializacao with _ | n2
    · rfl
    · have ha := h2 n2 hn
      simp [ha]
  unfold calculate_score_v3
  rw [h1, if_neg (by decide : ¬("SIM" : String) = "NÃO"), hb]
  simp only [Bool.false_eq_true, if_false]
  rw [ht, h5]
  simp [hty]

/-- C4 counterexample: the no-temporal-data fallback carries one diagnostic
penalty_detail yet keeps the penalties field at 0, so penalties is not minus
the length of penalty_details there. -/
theorem claim4_counterexample :
    calculate_score_v3 respSemMarcos todayW =
      some { score_breakdown := fallbackBreakdown "Sem dados temporais válidos"
             temporal_data := none } ∧
    ¬((fallbackBreakdown "Sem dados temporais válidos").penalties =
        -((fallbackBreakdown "Sem dados temporais válidos").penalty_details.length : Int)) :=
  ⟨rfl, by decide⟩

/-- C4 (amended): in every breakdown the engine returns, bonus equals the
length of bonus_details; penalties equals minus the length of penalty_details
on the short-circuit and scored branches, while the three diagnostic
fallbacks instead keep penalties at 0 with exactly one penalty_detail. -/
theorem claim4_count_invariant (resp : LLMResponseV3) (today : PyDate)
    (sr : ScoringResult) (h : calculate_score_v3 resp today = some sr) :
    sr.score_breakdown.bonus = (sr.score_breakdown.bonus_details.length : Int) ∧
    (sr.score_breakdown.penalties =
        -(sr.score_breakdown.penalty_details.length : Int) ∨
      (sr.score_breakdown.penalties = 0 ∧
        sr.score_breakdown.penalty_details.length = 1)) := by
  unfold calculate_score_v3 at h
  split_ifs at h
  · injection h with h
    subst h
    simp
  · injection h with h
    subst h
    simp
  · split at h
    · injection h with h
      subst h
      simp [fallbackBreakdown]
    · split at h
      · injection h with h
        subst h
        simp [fallbackBreakdown]
      · split_ifs at h <;> injection h with h <;> subst h <;>
          simp [finalizeScore, fallbackBreakdown]

/-- Witness for C4 (amended): the scenario-1 assessment takes the scored
branch where the counts match the detail lists exactly. -/
theorem claim4_witness :
    calculate_score_v3 respCenario1 todayW =
      some (finalizeScore (calculate_5b_scoring respCenario1 ⟨10, 10⟩) ⟨10, 10⟩) ∧
    ((finalizeScore (calculate_5b_scoring respCenario1 ⟨10, 10⟩)
        ⟨10, 10⟩).score_breakdown.bonus =
      (((finalizeScore (calculate_5b_scoring respCenario1 ⟨10, 10⟩)
        ⟨10, 10⟩).score_breakdown.bonus_details.length : Int))) := by
  have hd : calculate_score_v3 respCenario1 todayW =
      some (finalizeScore (calculate_5b_scoring respCenario1 ⟨10, 10⟩) ⟨10, 10⟩) :=
    engine_dispatch_5b respCenario1 todayW _ ⟨10, 10⟩ rfl
      (fun n2 hn => by
        have : (⟨"SIM", ""⟩ : Node2Materializacao) = n2 := Option.some.inj hn
        rw [← this])
      rfl rfl rfl
  exact ⟨hd, (claim4_count_invariant respCenario1 todayW _ hd).1⟩

/-- C1: for every assessment that reaches a path scorer (node 1 SIM, node 2
absent or SIM, valid temporal data, node 5 with a recognized type_active),
the engine computes base = BASE_SCORES[scorer timing], clamps
base - penalty count + bonus count into [0, 10], multiplies by the grave
multiplier and rounds; the resulting final always lies in [0, 10]. -/
theorem claim1_engine_formula (resp : LLMResponseV3) (today : PyDate)
    (n5 : Node5AnaliseEspecifica) (td : CalculatedTemporalData)
    (h1 : resp.node_1_plausibilidade.answer = "SIM")
    (h2 : ∀ n2, resp.node_2_materializacao = some n2 → n2.answer = "SIM")
    (ht : calculate_temporal_data resp today = some td)
    (h5 : resp.node_5_analise_especifica = some n5)
    (hty : n5.type_active = "5A_SUBSTITUICAO" ∨ n5.type_active = "5B_CONSTITUICAO") :
    ∃ spr : ScoringPathResult,
      ((n5.type_active = "5A_SUBSTITUICAO" → spr = calculate_5a_scoring resp td) ∧
       (n5.type_active = "5B_CONSTITUICAO" → spr = calculate_5b_scoring resp td)) ∧
      calculate_score_v3 resp today =
        some { score_breakdown :=
                 { timing_base := spr.timing
                   base := BASE_SCORES spr.timing
                   penalties := -(spr.penalties.length : Int)
                   penalty_details := spr.penalties
                   bonus := (spr.bonuses.length : Int)
                   bonus_details := spr.bonuses
                   grave_multiplier := spr.grave_multiplier
                   final := pyRound
                     (((max 0 (min 10 (BASE_SCORES spr.timing -
                           (spr.penalties.length : Int) +
                           (spr.bonuses.length : Int))) : Int) : Rat) *
                       spr.grave_multiplier) }
               temporal_data := some td } ∧
      0 ≤ pyRound
            (((max 0 (min 10 (BASE_SCORES spr.timing -
                  (spr.penalties.length : Int) + (spr.bonuses.length : Int))) : Int) : Rat) *
              spr.grave_multiplier) ∧
      pyRound
            (((max 0 (min 10 (BASE_SCORES spr.timing -
                  (spr.penalties.length : Int) + (spr.bonuses.length : Int))) : Int) : Rat) *
              spr.grave_multiplier) ≤ 10 := by
  have bounds : ∀ spr : ScoringPathResult,
      (spr.grave_multiplier = 1 ∨ spr.grave_multiplier = 3/4) →
      0 ≤ pyRound
            (((max 0 (min 10 (BASE_SCORES spr.timing -
                  (spr.penalties.length : Int) + (spr.bonuses.length : Int))) : Int) : Rat) *
              spr.grave_multiplier) ∧
      pyRound
            (((max 0 (min 10 (BASE_SCORES spr.timing -
                  (spr.penalties.length : Int) + (spr.bonuses.length : Int))) : Int) : Rat) *
              spr.grave_multiplier) ≤ 10 := by
    intro spr hm
    exact pyRound_bounds _ (le_max_left _ _)
      (max_le (by norm_num) (min_le_left _ _)) _ hm
  rcases hty with hty | hty
  · refine ⟨calculate_5a_scoring resp td,
      ⟨fun _ => rfl, fun hc => absurd (hty.symm.trans hc) (by decide)⟩, ?_, ?_⟩
    · rw [engine_dispatch_5a resp today n5 td h1 h2 ht h5 hty]
      rfl
    · exact bounds _ (calc5a_mult resp td)
  · refine ⟨calculate_5b_scoring resp td,
      ⟨fun hc => absurd (hty.symm.trans hc) (by decide), fun _ => rfl⟩, ?_, ?_⟩
    · rw [engine_dispatch_5b resp today n5 td h1 h2 ht h5 hty]
      rfl
    · exact bounds _ (calc5b_mult resp td)

/-- Witness for C1 at the concrete scenario-1 assessment. -/
theorem claim1_witness :
    respCenario1.node_1_plausibilidade.answer = "SIM" ∧
    calculate_temporal_data respCenario1 todayW = some ⟨10, 10⟩ ∧
    (∃ spr : ScoringPathResult,
      ((("5B_CONSTITUICAO" : String) = "5A_SUBSTITUICAO" →
          spr = calculate_5a_scoring respCenario1 ⟨10, 10⟩) ∧
       (("5B_CONSTITUICAO" : String) = "5B_CONSTITUICAO" →
          spr = calculate_5b_scoring respCenario1 ⟨10, 10⟩)) ∧
      calculate_score_v3 respCenario1 todayW =
        some { score_breakdown :=
                 { timing_base := spr.timing
                   base := BASE_SCORES spr.timing
                   penalties := -(spr.penalties.length : Int)
                   penalty_details := spr.penalties
                   bonus := (spr.bonuses.length : Int)
                   bonus_details := spr.bonuses
                   grave_multiplier := spr.grave_multiplier
                   final := pyRound
                     (((max 0 (min 10 (BASE_SCORES spr.timing -
                           (spr.penalties.length : Int) +
                           (spr.bonuses.length : Int))) : Int) : Rat) *
                       spr.grave_multiplier) }
               temporal_data := some ⟨10, 10⟩ } ∧
      0 ≤ pyRound
            (((max 0 (min 10 (BASE_SCORES spr.timing -
                  (spr.penalties.length : Int) + (spr.bonuses.length : Int))) : Int) : Rat) *
              spr.grave_multiplier) ∧
      pyRound
            (((max 0 (min 10 (BASE_SCORES spr.timing -
                  (spr.penalties.length : Int) + (spr.bonuses.length : Int))) : Int) : Rat) *
              spr.grave_multiplier) ≤ 10) :=
  ⟨rfl, rfl,
   claim1_engine_formula respCenario1 todayW _ ⟨10, 10⟩ rfl
     (fun n2 hn => by
       have h := Option.some.inj hn
       rw [← h])
     rfl rfl (Or.inr rfl)⟩

/-- C2: on the constitution path (details present, case not closed) the
decision table maps (dias, ameaca) to timing and temporal tags exactly per
the bucket table — including the simultaneous bonus-and-penalty bucket at
dias ≥ 90 with an imminent threat — and the scorer records exactly that
table's tags (as prefixes of its final lists) and, absent special contexts,
that table's timing. -/
theorem claim2_tabela5b :
    (∀ (dias : Int) (ameaca : Bool),
      (dias < 15 → tabela5b dias ameaca =
        { timing := TimingBase.AGORA_CONSTITUICAO, penalties := [],
          bonuses := if ameaca then
              ["marco_recente_15_dias", "ameaca_constricao_iminente"]
            else ["marco_recente_15_dias"] }) ∧
      (15 ≤ dias → dias < 60 → tabela5b dias ameaca =
        { timing := TimingBase.AGORA_CONSTITUICAO, penalties := [],
          bonuses := if ameaca then ["ameaca_constricao_iminente"] else [] }) ∧
      (60 ≤ dias → dias < 90 →
        (ameaca = true → tabela5b dias ameaca =
          { timing := TimingBase.AGORA_CONSTITUICAO, penalties := [],
            bonuses := ["ameaca_constricao_iminente"] }) ∧
        (ameaca = false → tabela5b dias ameaca =
          { timing := TimingBase.ACOMPANHAR,
            penalties := ["marco_acima_60_dias"], bonuses := [] })) ∧
      (90 ≤ dias →
        (ameaca = true → tabela5b dias ameaca =
          { timing := TimingBase.AGORA_CONSTITUICAO,
            penalties := ["marco_acima_90_dias"],
            bonuses := ["ameaca_constricao_iminente"] }) ∧
        (ameaca = false → tabela5b dias ameaca =
          { timing := TimingBase.ACOMPANHAR,
            penalties := if 180 < dias then
                ["marco_acima_90_dias", "marco_acima_180_dias"]
              else ["marco_acima_90_dias"],
            bonuses := [] }))) ∧
    (∀ (resp : LLMResponseV3) (temporal : CalculatedTemporalData)
       (n5 : Node5AnaliseEspecifica) (d : Details5B) (m : Node3MarcosTemporais),
      resp.node_5_analise_especifica = some n5 →
      n5.details_5b = some d →
      resp.node_3_marcos_temporais = some m →
      d.processo_encerrado = false →
      (tabela5b temporal.dias_desde_marco_mais_recente
          d.ameaca_constricao_iminente).penalties <+:
        (calculate_5b_scoring resp temporal).penalties ∧
      (tabela5b temporal.dias_desde_marco_mais_recente
          d.ameaca_constricao_iminente).bonuses <+:
        (calculate_5b_scoring resp temporal).bonuses ∧
      (tem_contexto_especial m = false →
        (calculate_5b_scoring resp temporal).timing =
          (tabela5b temporal.dias_desde_marco_mais_recente
            d.ameaca_constricao_iminente).timing)) := by
  constructor
  · intro dias ameaca
    refine ⟨?_, ?_, ?_, ?_⟩
    · intro h
      unfold tabela5b
      rw [if_pos h]
    · intro h1 h2
      unfold tabela5b
      rw [if_neg (by omega), if_pos h2]
    · intro h1 h2
      constructor <;> intro ha <;>
        (unfold tabela5b; rw [if_neg (by omega), if_neg (by omega), if_pos h2]) <;>
        simp [ha]
    · intro h1
      constructor <;> intro ha <;>
        (unfold tabela5b;
         rw [if_neg (by omega), if_neg (by omega), if_neg (by omega)]) <;>
        simp [ha]
  · intro resp temporal n5 d m h5 hd hm hnc
    rw [calc5b_open resp temporal n5 d m h5 hd hm hnc]
    simp only [applyContexto_penalties, applyContexto_bonuses, applyContexto_timing]
    refine ⟨?_, ?_, ?_⟩
    · split_ifs <;>
        first
          | exact List.prefix_rfl
          | exact List.prefix_append _ _
          | exact (List.prefix_append _ _).trans (List.prefix_append _ _)
    · split_ifs <;>
        first
          | exact List.prefix_rfl
          | exact List.prefix_append _ _
    · intro hc
      simp [hc]

/-- Witness for C2: the dias = 100 threatened bucket records bonus and
penalty simultaneously, the dias = 10 bucket yields the recent-marker bonus,
and the scenario-1 scorer carries the table bonuses through. -/
theorem claim2_witness :
    tabela5b 100 true =
      { timing := TimingBase.AGORA_CONSTITUICAO,
        penalties := ["marco_acima_90_dias"],
        bonuses := ["ameaca_constricao_iminente"] } ∧
    tabela5b 10 false =
      { timing := TimingBase.AGORA_CONSTITUICAO, penalties := [],
        bonuses := ["marco_recente_15_dias"] } ∧
    (tabela5b 10 false).bonuses <+:
      (calculate_5b_scoring respCenario1 ⟨10, 10⟩).bonuses :=
  ⟨((claim2_tabela5b.1 100 true).2.2.2 (by norm_num)).1 rfl,
   by simpa using (claim2_tabela5b.1 10 false).1 (by norm_num),
   (claim2_tabela5b.2 respCenario1 ⟨10, 10⟩ _ details5bAberto marcosRecentes
     rfl rfl rfl rfl).2.1⟩

/-- C10: a most-recent marker dated after the reference date yields a
negative day count, and a negative dias lands in the under-15-days bucket:
AGORA_CONSTITUICAO with the recent-marker bonus, exactly as a fresh marker;
with no special context, the scorer keeps that maximal timing. -/
theorem claim10_future_marker :
    (∀ d1 d2 : PyDate, toOrdinal d1 < toOrdinal d2 → diff_in_days d1 d2 < 0) ∧
    (∀ (dias : Int) (ameaca : Bool), dias < 0 →
      tabela5b dias ameaca = tabela5b 0 ameaca ∧
      (tabela5b dias ameaca).timing = TimingBase.AGORA_CONSTITUICAO ∧
      "marco_recente_15_dias" ∈ (tabela5b dias ameaca).bonuses) ∧
    (∀ (resp : LLMResponseV3) (temporal : CalculatedTemporalData)
       (n5 : Node5AnaliseEspecifica) (d : Details5B) (m : Node3MarcosTemporais),
      resp.node_5_analise_especifica = some n5 →
      n5.details_5b = some d →
      resp.node_3_marcos_temporais = some m →
      d.processo_encerrado = false →
      temporal.dias_desde_marco_mais_recente < 0 →
      "marco_recente_15_dias" ∈ (calculate_5b_scoring resp temporal).bonuses ∧
      (tem_contexto_especial m = false →
        (calculate_5b_scoring resp temporal).timing =
          TimingBase.AGORA_CONSTITUICAO)) := by
  have htable : ∀ (dias : Int) (ameaca : Bool), dias < 0 →
      tabela5b dias ameaca = tabela5b 0 ameaca ∧
      (tabela5b dias ameaca).timing = TimingBase.AGORA_CONSTITUICAO ∧
      "marco_recente_15_dias" ∈ (tabela5b dias ameaca).bonuses := by
    intro dias ameaca h
    have e1 : tabela5b dias ameaca =
        { timing := TimingBase.AGORA_CONSTITUICAO, penalties := [],
          bonuses := if ameaca then
              ["marco_recente_15_dias", "ameaca_constricao_iminente"]
            else ["marco_recente_15_dias"] } := by
      unfold tabela5b
      rw [if_pos (by omega)]
    have e2 : tabela5b 0 ameaca =
        { timing := TimingBase.AGORA_CONSTITUICAO, penalties := [],
          bonuses := if ameaca then
              ["marco_recente_15_dias", "ameaca_constricao_iminente"]
            else ["marco_recente_15_dias"] } := by
      unfold tabela5b
      rw [if_pos (by norm_num)]
    refine ⟨e1.trans e2.symm, by rw [e1], ?_⟩
    rw [e1]
    cases ameaca <;> simp
  refine ⟨?_, htable, ?_⟩
  · intro d1 d2 h
    unfold diff_in_days
    omega
  · intro resp temporal n5 d m h5 hd hm hnc hneg
    obtain ⟨_, htim, hmem⟩ :=
      htable temporal.dias_desde_marco_mais_recente d.ameaca_constricao_iminente hneg
    rw [calc5b_open resp temporal n5 d m h5 hd hm hnc]
    simp only [applyContexto_bonuses, applyContexto_timing]
    constructor
    · split_ifs
      · exact List.mem_append_left _ hmem
      · exact hmem
    · intro hc
      simp [hc, htim]

/-- Witness for C10: 10/01/2024 viewed from 01/01/2024 gives −9 days, which
the table treats as the maximal bucket; concretely on a future-dated marker
assessment the scorer answers AGORA_CONSTITUICAO with the recent bonus. -/
theorem claim10_witness :
    toOrdinal todayW < toOrdinal ⟨2024, 2, 1⟩ ∧
    diff_in_days todayW ⟨2024, 2, 1⟩ < 0 ∧
    tabela5b (-21) false = tabela5b 0 false ∧
    "marco_recente_15_dias" ∈
      (calculate_5b_scoring respCenario1 ⟨-21, -21⟩).bonuses ∧
    (calculate_5b_scoring respCenario1 ⟨-21, -21⟩).timing =
      TimingBase.AGORA_CONSTITUICAO := by
  refine ⟨by decide, claim10_future_marker.1 todayW ⟨2024, 2, 1⟩ (by decide),
    (claim10_future_marker.2.1 (-21) false (by norm_num)).1, ?_, ?_⟩
  · exact (claim10_future_marker.2.2 respCenario1 ⟨-21, -21⟩ _ details5bAberto
      marcosRecentes rfl rfl rfl rfl (by norm_num)).1
  · exact (claim10_future_marker.2.2 respCenario1 ⟨-21, -21⟩ _ details5bAberto
      marcosRecentes rfl rfl rfl rfl (by norm_num)).2 rfl

/-- C5: on both paths, past their early exits, the special-context penalty
tag is recorded exactly when one of the four relevant detectors (judicial
recovery, bankruptcy, settlement-in-negotiation, suspended case — the
appellate-phase and multiple-defendant detectors do not participate) fires,
and in that case the timing ends as ACOMPANHAR (the AGORA verdicts are
downgraded). -/
theorem claim5_contexto :
    (∀ (resp : LLMResponseV3) (temporal : CalculatedTemporalData)
       (n5 : Node5AnaliseEspecifica) (d : Details5B) (m : Node3MarcosTemporais),
      resp.node_5_analise_especifica = some n5 →
      n5.details_5b = some d →
      resp.node_3_marcos_temporais = some m →
      d.processo_encerrado = false →
      (("contexto_especial_presente" ∈
          (calculate_5b_scoring resp temporal).penalties) ↔
        tem_contexto_especial m = true) ∧
      (tem_contexto_especial m = true →
        (calculate_5b_scoring resp temporal).timing = TimingBase.ACOMPANHAR)) ∧
    (∀ (resp : LLMResponseV3) (temporal : CalculatedTemporalData)
       (n5 : Node5AnaliseEspecifica) (d : Details5A) (m : Node3MarcosTemporais),
      resp.node_5_analise_especifica = some n5 →
      n5.details_5a = some d →
      resp.node_3_marcos_temporais = some m →
      d.tipo_garantia ≠ TipoGarantia.seguro_garantia →
      (("contexto_especial_presente" ∈
          (calculate_5a_scoring resp temporal).penalties) ↔
        tem_contexto_especial m = true) ∧
      (tem_contexto_especial m = true →
        (calculate_5a_scoring resp temporal).timing = TimingBase.ACOMPANHAR)) := by
  constructor
  · intro resp temporal n5 d m h5 hd hm hnc
    have hnot : "contexto_especial_presente" ∉
        (tabela5b temporal.dias_desde_marco_mais_recente
          d.ameaca_constricao_iminente).penalties := by
      intro hmem
      rcases tabela5b_penalty_tags _ _ _ hmem with h | h | h <;> simp at h
    rw [calc5b_open resp temporal n5 d m h5 hd hm hnc]
    simp only [applyContexto_penalties, applyContexto_timing]
    refine ⟨⟨?_, ?_⟩, ?_⟩
    · intro hmem
      rcases mem_if_append hmem with hmem | h
      · by_contra hctx
        rw [Bool.not_eq_true] at hctx
        rw [hctx] at hmem
        simp at hmem
        exact hnot hmem
      · exact absurd h (by decide)
    · intro hctx
      rw [if_pos hctx]
      split_ifs <;> simp
    · intro hctx
      rw [if_pos hctx]
      rcases tabela5b_timing temporal.dias_desde_marco_mais_recente
          d.ameaca_constricao_iminente with h | h <;> simp [h]
  · intro resp temporal n5 d m h5 hd hm hseg
    have hnot4 : ∀ t, t ∈ (applyNode4 resp.node_4_garantia_existente
        resp.variaveis_llm (tabela5a d.tipo_garantia d.garantia_onerosa)).penalties →
        t = "contexto_especial_presente" → False := by
      intro t hmem hteq
      subst hteq
      rcases applyNode4_penalty_tags _ _ _ _ hmem with hmem | h | h | h
      · have := tabela5a_penalty_tags _ _ _ hmem
        simp at this
      · simp at h
      · simp at h
      · simp at h
    rw [calc5a_open resp temporal n5 d m h5 hd hm hseg]
    simp only [applyContexto_penalties, applyContexto_timing]
    refine ⟨⟨?_, ?_⟩, ?_⟩
    · intro hmem
      rcases mem_if_append hmem with hmem | h
      · by_contra hctx
        rw [Bool.not_eq_true] at hctx
        rw [hctx] at hmem
        simp at hmem
        rcases mem_if_append hmem with hmem | h
        · rcases mem_if_append hmem with hmem | h
          · exact hnot4 _ hmem rfl
          · exact absurd h (by decide)
        · exact absurd h (by decide)
      · exact absurd h (by decide)
    · intro hctx
      rw [if_pos hctx]
      split_ifs <;> simp
    · intro hctx
      rw [if_pos hctx]
      rcases tabela5a_timing d.tipo_garantia d.garantia_onerosa with h | h <;>
        simp [applyNode4_timing, h]

/-- Witness for C5: a suspended case on the constitution path with a fresh
marker gets the special-context tag and is downgraded to ACOMPANHAR. -/
theorem claim5_witness :
    tem_contexto_especial marcosSuspenso = true ∧
    ("contexto_especial_presente" ∈
      (calculate_5b_scoring respCtxSuspenso tdRecente).penalties) ∧
    (calculate_5b_scoring respCtxSuspenso tdRecente).timing =
      TimingBase.ACOMPANHAR := by
  have h := claim5_contexto.1 respCtxSuspenso tdRecente
    ⟨"5B_CONSTITUICAO", none, some details5bAberto⟩ details5bAberto
    marcosSuspenso rfl rfl rfl rfl
  exact ⟨rfl, h.1.mpr rfl, h.2 rfl⟩

/-- C6 counterexample: an input that reaches the constitution scorer with a
primary marker 400 days old and the passivity flag set, but whose case is
closed, keeps multiplier 1.0 and records no passivity tag — the claim's
unconditional passivity rule fails on the early-exit branches. -/
theorem claim6_counterexample :
    (400 : Int) > 365 ∧
    respEncerrado.variaveis_llm.executado_demonstrou_passividade = true ∧
    calculate_5b_scoring respEncerrado ⟨400, 10⟩ =
      { timing := TimingBase.PASSOU, penalties := [], bonuses := [],
        grave_multiplier := 1 } ∧
    ¬((calculate_5b_scoring respEncerrado ⟨400, 10⟩).grave_multiplier = 3/4) ∧
    "passividade_historica_cliente" ∉
      (calculate_5b_scoring respEncerrado ⟨400, 10⟩).penalties := by
  refine ⟨by norm_num, rfl, rfl, ?_, ?_⟩
  · exact (by norm_num : ¬((1 : Rat) = 3/4))
  · exact (by simp : "passividade_historica_cliente" ∉ ([] : List String))

/-- C6 (amended): past the scorers' early exits, a primary marker older than
365 days together with the passivity flag forces multiplier 0.75 and appends
the passivity tag exactly once; the final is then the round-half-to-even of
intermediate × 3/4, which sends 4.5 to 4 and 7.5 to 8. -/
theorem claim6_passividade :
    (∀ (resp : LLMResponseV3) (temporal : CalculatedTemporalData)
       (n5 : Node5AnaliseEspecifica) (d : Details5B) (m : Node3MarcosTemporais),
      resp.node_5_analise_especifica = some n5 →
      n5.details_5b = some d →
      resp.node_3_marcos_temporais = some m →
      d.processo_encerrado = false →
      temporal.dias_desde_marco_primario > 365 →
      resp.variaveis_llm.executado_demonstrou_passividade = true →
      (calculate_5b_scoring resp temporal).grave_multiplier = 3/4 ∧
      (calculate_5b_scoring resp temporal).penalties.count
        "passividade_historica_cliente" = 1) ∧
    (∀ (resp : LLMResponseV3) (temporal : CalculatedTemporalData)
       (n5 : Node5AnaliseEspecifica) (d : Details5A) (m : Node3MarcosTemporais),
      resp.node_5_analise_especifica = some n5 →
      n5.details_5a = some d →
      resp.node_3_marcos_temporais = some m →
      d.tipo_garantia ≠ TipoGarantia.seguro_garantia →
      temporal.dias_desde_marco_primario > 365 →
      resp.variaveis_llm.executado_demonstrou_passividade = true →
      (calculate_5a_scoring resp temporal).grave_multiplier = 3/4 ∧
      (calculate_5a_scoring resp temporal).penalties.count
        "passividade_historica_cliente" = 1) ∧
    (∀ (spr : ScoringPathResult) (td : CalculatedTemporalData),
      spr.grave_multiplier = 3/4 →
      (finalizeScore spr td).score_breakdown.final =
        pyRound (((max 0 (min 10 (BASE_SCORES spr.timing -
            (spr.penalties.length : Int) + (spr.bonuses.length : Int))) : Int) : Rat) *
          (3/4))) ∧
    pyRound ((6 : Rat) * (3/4)) = 4 ∧
    pyRound ((10 : Rat) * (3/4)) = 8 := by
  refine ⟨?_, ?_, ?_, ?_, ?_⟩
  · intro resp temporal n5 d m h5 hd hm hnc h365 hp
    have hpass : (decide (temporal.dias_desde_marco_primario > 365) &&
        resp.variaveis_llm.executado_demonstrou_passividade) = true := by
      simp [hp, h365]
    have hnot : "passividade_historica_cliente" ∉
        (applyContextoEspecial TimingBase.AGORA_CONSTITUICAO m
          (tabela5b temporal.dias_desde_marco_mais_recente
            d.ameaca_constricao_iminente)).penalties := by
      rw [applyContexto_penalties]
      intro hmem
      rcases mem_if_append hmem with hmem | h
      · rcases tabela5b_penalty_tags _ _ _ hmem with h | h | h <;> simp at h
      · simp at h
    rw [calc5b_open resp temporal n5 d m h5 hd hm hnc]
    simp only []
    rw [if_pos hpass, if_pos hpass]
    refine ⟨rfl, ?_⟩
    rw [List.count_append, List.count_eq_zero.mpr hnot]
    simp
  · intro resp temporal n5 d m h5 hd hm hseg h365 hp
    have hpass : (decide (temporal.dias_desde_marco_primario > 365) &&
        resp.variaveis_llm.executado_demonstrou_passividade) = true := by
      simp [hp, h365]
    have hnot : "passividade_historica_cliente" ∉
        (applyContextoEspecial TimingBase.AGORA_SUBSTITUICAO m
          { timing := (applyNode4 resp.node_4_garantia_existente resp.variaveis_llm
              (tabela5a d.tipo_garantia d.garantia_onerosa)).timing
            penalties :=
              if temporal.dias_desde_marco_mais_recente > 180 then
                (if temporal.dias_desde_marco_mais_recente > 90 then
                  (applyNode4 resp.node_4_garantia_existente resp.variaveis_llm
                    (tabela5a d.tipo_garantia d.garantia_onerosa)).penalties ++
                      ["marco_acima_90_dias"]
                 else
                  (applyNode4 resp.node_4_garantia_existente resp.variaveis_llm
                    (tabela5a d.tipo_garantia d.garantia_onerosa)).penalties) ++
                  ["marco_acima_180_dias"]
              else
                (if temporal.dias_desde_marco_mais_recente > 90 then
                  (applyNode4 resp.node_4_garantia_existente resp.variaveis_llm
                    (tabela5a d.tipo_garantia d.garantia_onerosa)).penalties ++
                      ["marco_acima_90_dias"]
                 else
                  (applyNode4 resp.node_4_garantia_existente resp.variaveis_llm
                    (tabela5a d.tipo_garantia d.garantia_onerosa)).penalties)
            bonuses := (applyNode4 resp.node_4_garantia_existente resp.variaveis_llm
              (tabela5a d.tipo_garantia d.garantia_onerosa)).bonuses }).penalties := by
      rw [applyContexto_penalties]
      intro hmem
      rcases mem_if_append hmem with hmem | h
      · rcases mem_if_append hmem with hmem | h
        · rcases mem_if_append hmem with hmem | h
          · rcases applyNode4_penalty_tags _ _ _ _ hmem with hmem | h | h | h
            · have := tabela5a_penalty_tags _ _ _ hmem
              simp at this
            · simp at h
            · simp at h
            · simp at h
          · simp at h
        · simp at h
      · simp at h
    rw [calc5a_open resp temporal n5 d m h5 hd hm hseg]
    simp only []
    rw [if_pos hpass, if_pos hpass]
    refine ⟨rfl, ?_⟩
    rw [List.count_append, List.count_eq_zero.mpr hnot]
    simp
  · intro spr td h
    simp only [finalizeScore]
    rw [h]
  · simp only [pyRound]
    norm_num
  · simp only [pyRound]
    norm_num

/-- Witness for C6 (amended) at a concrete passive, open 5B case. -/
theorem claim6_witness :
    (400 : Int) > 365 ∧
    respPassivo.variaveis_llm.executado_demonstrou_passividade = true ∧
    (calculate_5b_scoring respPassivo tdAntigo).grave_multiplier = 3/4 ∧
    (calculate_5b_scoring respPassivo tdAntigo).penalties.count
      "passividade_historica_cliente" = 1 ∧
    pyRound ((6 : Rat) * (3/4)) = 4 := by
  have h := claim6_passividade.1 respPassivo tdAntigo
    ⟨"5B_CONSTITUICAO", none, some details5bAberto⟩ details5bAberto marcosRecentes
    rfl rfl rfl rfl (by decide) rfl
  exact ⟨by norm_num, rfl, h.1, h.2, claim6_passividade.2.2.2.1⟩

/-- A decimal ASCII digit is not int()-whitespace. -/
lemma pyIsSpace_of_digit {c : Char} (h : 48 ≤ c.toNat ∧ c.toNat ≤ 57) :
    pyIsSpace c = false := by
  unfold pyIsSpace
  exact decide_eq_false (by omega)

lemma pyDigitVal_ascii {c : Char} (h : 48 ≤ c.toNat ∧ c.toNat ≤ 57) :
    pyDigitVal c = some (c.toNat - 48) := by
  unfold pyDigitVal
  rw [if_pos h]

lemma stripPy_of_digits (ds : List Char)
    (h : ∀ ch ∈ ds, 48 ≤ ch.toNat ∧ ch.toNat ≤ 57) : stripPy ds = ds := by
  have hw : ∀ ch ∈ ds, pyIsSpace ch = false := fun ch hm =>
    pyIsSpace_of_digit (h ch hm)
  unfold stripPy
  have h1 : ds.dropWhile pyIsSpace = ds := by
    cases ds with
    | nil => rfl
    | cons c t =>
      rw [List.dropWhile_cons, hw c (by simp)]
      simp
  rw [h1]
  have h2 : ds.reverse.dropWhile pyIsSpace = ds.reverse := by
    cases hr : ds.reverse with
    | nil => rfl
    | cons c t =>
      have hc : c ∈ ds := by
        rw [← List.mem_reverse, hr]
        simp
      rw [List.dropWhile_cons, hw c hc]
      simp
  rw [h2, List.reverse_reverse]

lemma pyDigitsAux_digits (ds : List Char) :
    ∀ acc : Nat, (∀ ch ∈ ds, 48 ≤ ch.toNat ∧ ch.toNat ≤ 57) →
    pyDigitsAux ds acc =
      some (ds.foldl (fun n ch => n * 10 + (ch.toNat - 48)) acc) := by
  induction ds with
  | nil => intro acc h; rfl
  | cons c t ih =>
    intro acc h
    have hc := h c (by simp)
    have hu : ¬(c = '_') := fun he => absurd (he ▸ hc) (by decide)
    unfold pyDigitsAux
    rw [if_neg hu, pyDigitVal_ascii hc]
    simp only [List.foldl_cons]
    exact ih _ (fun ch hm => h ch (by simp [hm]))

lemma pyDigits_digits (ds : List Char) (hne : ds ≠ [])
    (h : ∀ ch ∈ ds, 48 ≤ ch.toNat ∧ ch.toNat ≤ 57) :
    pyDigits ds =
      some (ds.foldl (fun n ch => n * 10 + (ch.toNat - 48)) 0) := by
  cases ds with
  | nil => exact absurd rfl hne
  | cons c t =>
    have hc := h c (by simp)
    have e : pyDigits (c :: t) =
        (match pyDigitVal c with
         | some v => pyDigitsAux t v
         | none => none) := rfl
    rw [e, pyDigitVal_ascii hc]
    show pyDigitsAux t (c.toNat - 48) = _
    rw [pyDigitsAux_digits t (c.toNat - 48) (fun ch hm => h ch (by simp [hm]))]
    simp only [List.foldl_cons]
    norm_num

/-- Python int() on a plain nonempty ASCII-digit field reads its decimal
value, whatever the padding or length. -/
lemma pyInt_digits (ds : List Char) (hne : ds ≠ [])
    (h : ∀ ch ∈ ds, 48 ≤ ch.toNat ∧ ch.toNat ≤ 57) :
    pyInt ds =
      some ((ds.foldl (fun n ch => n * 10 + (ch.toNat - 48)) 0 : Nat) : Int) := by
  unfold pyInt
  rw [stripPy_of_digits ds h]
  cases ds with
  | nil => exact absurd rfl hne
  | cons c t =>
    have hc := h c (by simp)
    simp only []
    rw [if_neg (fun he => absurd (he ▸ hc) (by decide)),
        if_neg (fun he => absurd (he ▸ hc) (by decide)),
        pyDigits_digits (c :: t) (by simp) h]
    rfl

lemma splitSlash_sep (a r : List Char) (h : ∀ ch ∈ a, ¬(ch = '/')) :
    splitSlash (a ++ ('/' :: r)) = a :: splitSlash r := by
  induction a with
  | nil =>
    show splitSlash ('/' :: r) = [] :: splitSlash r
    have e : splitSlash ('/' :: r) =
        (if ('/' : Char) = '/' then [] :: splitSlash r
         else
           match splitSlash r with
           | hh :: tt => ('/' :: hh) :: tt
           | [] => [['/']]) := rfl
    rw [e, if_pos rfl]
  | cons c t ih =>
    have hc := h c (by simp)
    simp only [List.cons_append]
    have e : splitSlash (c :: (t ++ ('/' :: r))) =
        (if c = '/' then [] :: splitSlash (t ++ ('/' :: r))
         else
           match splitSlash (t ++ ('/' :: r)) with
           | hh :: tt => (c :: hh) :: tt
           | [] => [[c]]) := rfl
    rw [e, if_neg hc, ih (fun ch hm => h ch (by simp [hm]))]

lemma splitSlash_nosep (a : List Char) (h : ∀ ch ∈ a, ¬(ch = '/')) :
    splitSlash a = [a] := by
  induction a with
  | nil => rfl
  | cons c t ih =>
    have hc := h c (by simp)
    have e : splitSlash (c :: t) =
        (if c = '/' then [] :: splitSlash t
         else
           match splitSlash t with
           | hh :: tt => (c :: hh) :: tt
           | [] => [[c]]) := rfl
    rw [e, if_neg hc, ih (fun ch hm => h ch (by simp [hm]))]

/-- C8 counterexample: parse_date happily accepts dates that are not in the
exact zero-padded DD/MM/YYYY shape — a non-padded day and month, and a
two-digit year (read as year 20 of era 1). -/
theorem claim8_counterexample :
    parse_date "1/1/2020" = some ⟨2020, 1, 1⟩ ∧
    parse_date "01/01/20" = some ⟨20, 1, 1⟩ :=
  ⟨rfl, rfl⟩

/-- C8 (amended): parse_date does not enforce the exact DD/MM/YYYY shape:
every slash-separated triple of nonempty plain-digit fields — whatever the
padding or digit count — is read as day/month/year and parses to the
calendar date precisely when datetime.date validation passes (and to none,
not an exception, otherwise); a string without exactly three slash fields
parses to none; and when either marker fails to parse, the engine funnels
the assessment into the no-temporal-data ACOMPANHAR fallback instead of
raising. -/
theorem claim8_parse_fallback :
    (∀ s : String, (splitSlash s.toList).length ≠ 3 → parse_date s = none) ∧
    (∀ a b c : List Char, a ≠ [] → b ≠ [] → c ≠ [] →
      (∀ ch ∈ a, 48 ≤ ch.toNat ∧ ch.toNat ≤ 57) →
      (∀ ch ∈ b, 48 ≤ ch.toNat ∧ ch.toNat ≤ 57) →
      (∀ ch ∈ c, 48 ≤ ch.toNat ∧ ch.toNat ≤ 57) →
      parse_date (String.mk (a ++ ('/' :: (b ++ ('/' :: c))))) =
        mkPyDate
          ((c.foldl (fun n ch => n * 10 + (ch.toNat - 48)) 0 : Nat) : Int)
          ((b.foldl (fun n ch => n * 10 + (ch.toNat - 48)) 0 : Nat) : Int)
          ((a.foldl (fun n ch => n * 10 + (ch.toNat - 48)) 0 : Nat) : Int)) ∧
    (∀ (resp : LLMResponseV3) (today : PyDate) (m : Node3MarcosTemporais),
      resp.node_3_marcos_temporais = some m →
      (parse_date m.marco_primario.data = none ∨
        parse_date m.marco_mais_recente.data = none) →
      calculate_temporal_data resp today = none) ∧
    (∀ (resp : LLMResponseV3) (today : PyDate),
      resp.node_1_plausibilidade.answer = "SIM" →
      (∀ n2, resp.node_2_materializacao = some n2 → n2.answer = "SIM") →
      calculate_temporal_data resp today = none →
      calculate_score_v3 resp today =
        some { score_breakdown := fallbackBreakdown "Sem dados temporais válidos"
               temporal_data := none }) := by
  refine ⟨?_, ?_, ?_, ?_⟩
  · intro s h
    unfold parse_date
    split_ifs with h1
    · rfl
    · simp only []
      rw [if_pos h]
  · intro a b c hna hnb hnc hda hdb hdc
    have hsa : ∀ ch ∈ a, ¬(ch = '/') := fun ch hm he =>
      absurd (he ▸ hda ch hm) (by decide)
    have hsb : ∀ ch ∈ b, ¬(ch = '/') := fun ch hm he =>
      absurd (he ▸ hdb ch hm) (by decide)
    have hsc : ∀ ch ∈ c, ¬(ch = '/') := fun ch hm he =>
      absurd (he ▸ hdc ch hm) (by decide)
    unfold parse_date
    rw [if_neg ?hne]
    case hne =>
      intro hEq
      have hdata : a ++ ('/' :: (b ++ ('/' :: c))) = [] :=
        congrArg String.data hEq
      simp at hdata
    simp only []
    have hts : (String.mk (a ++ ('/' :: (b ++ ('/' :: c))))).toList =
        a ++ ('/' :: (b ++ ('/' :: c))) := rfl
    rw [hts, splitSlash_sep a _ hsa, splitSlash_sep b _ hsb,
      splitSlash_nosep c hsc]
    rw [if_neg (by simp)]
    simp only []
    rw [pyInt_digits a hna hda, pyInt_digits b hnb hdb, pyInt_digits c hnc hdc]
  · intro resp today m hm h
    unfold calculate_temporal_data
    rw [hm]
    rcases hp : parse_date m.marco_primario.data with _ | dp <;>
      rcases hr : parse_date m.marco_mais_recente.data with _ | dr <;>
      simp_all
  · intro resp today h1 h2 ht
    exact engine_no_temporal resp today h1 h2 ht

/-- Witness for C8 (amended) at concrete inputs: a non-slash string, the
universal digit-triple clause at an accepted unpadded date and at an
invalid calendar date, and the engine funnel on unparseable markers. -/
theorem claim8_witness :
    (splitSlash ("01-01-2020".toList)).length ≠ 3 ∧
    parse_date "01-01-2020" = none ∧
    parse_date "2024-01-01" = none ∧
    parse_date "9/2/2020" = some ⟨2020, 2, 9⟩ ∧
    parse_date "31/02/2020" = none ∧
    parse_date " 1/1 /2_020" = some ⟨2020, 1, 1⟩ ∧
    parse_date "١/١/٢٠٢٠" = some ⟨2020, 1, 1⟩ ∧
    calculate_temporal_data respDataInvalida todayW = none ∧
    calculate_score_v3 respDataInvalida todayW =
      some { score_breakdown := fallbackBreakdown "Sem dados temporais válidos"
             temporal_data := none } := by
  refine ⟨by decide, claim8_parse_fallback.1 "01-01-2020" (by decide),
    claim8_parse_fallback.1 "2024-01-01" (by decide), ?_, ?_, by decide, by decide,
    claim8_parse_fallback.2.2.1 respDataInvalida todayW marcosDataInvalida rfl
      (Or.inl (claim8_parse_fallback.1 "2024-01-01" (by decide))), ?_⟩
  · have h := claim8_parse_fallback.2.1 ['9'] ['2'] ['2', '0', '2', '0']
      (by decide) (by decide) (by decide) (by decide) (by decide) (by decide)
    rw [show ("9/2/2020" : String) =
        String.mk (['9'] ++ ('/' :: (['2'] ++ ('/' :: ['2', '0', '2', '0']))))
      from rfl]
    rw [h]
    decide
  · have h := claim8_parse_fallback.2.1 ['3', '1'] ['0', '2'] ['2', '0', '2', '0']
      (by decide) (by decide) (by decide) (by decide) (by decide) (by decide)
    rw [show ("31/02/2020" : String) =
        String.mk (['3', '1'] ++ ('/' :: (['0', '2'] ++ ('/' :: ['2', '0', '2', '0']))))
      from rfl]
    rw [h]
    decide
  · exact claim8_parse_fallback.2.2.2 respDataInvalida todayW rfl
      (fun n2 hn => Option.noConfusion hn)
      (claim8_parse_fallback.2.2.1 respDataInvalida todayW marcosDataInvalida rfl
        (Or.inl (claim8_parse_fallback.1 "2024-01-01" (by decide))))
